import Mathlib

/-!
Verification of `resize_boxes.py` (repository `labeling_utils`).

The program scales axis-aligned bounding boxes stored in XML annotation
files around their centers by a scale factor and clamps them to the
image extent.  This file gives a shallow embedding of the program's data
model and operations, and proves or refutes the frozen claims about it.

Modelling conventions:
- Python ints are `ℤ`.
- The Python float `scale_factor` and the float arithmetic inside
  `get_scaled_box` are modelled exactly over `ℚ`; Python `int(·)` applied
  to a float truncates toward zero, modelled by `truncQ`.
- The mutable `self.width` / `self.height` instance state that
  `get_scaled_box` reads is passed explicitly as an `Extent` parameter
  (it is set once per document before any box of that document is
  scaled).
- XML element trees (lxml) are modelled by the rose tree `XML`; an
  element has a tag, a text and a list of children.  `find(t)` is the
  first direct child with tag `t`; `findall(t)` is all direct children
  with tag `t`; writing `.text` of a found child in place is modelled by
  replacing the first child with that tag.
- Fatal Python exceptions (`AttributeError` on `None`, `TypeError`
  iterating `None`, `ValueError` from `int(text)`) are modelled by
  `Option`: `none` is an aborted (fatal) run.
-/

/-- Bounding box data class of `resize_boxes.py` (lines 8-16): four
integer pixel coordinates, each defaulting to `0`. -/
structure BoundingBox where
  x_min : ℤ := 0
  x_max : ℤ := 0
  y_min : ℤ := 0
  y_max : ℤ := 0
deriving DecidableEq

/-- Image extent: the `self.width` / `self.height` state of `BoxResizer`
(lines 41-42), read from the document's `size` element and used only for
clamping. -/
structure Extent where
  width : ℤ
  height : ℤ
deriving DecidableEq

/-- Truncation toward zero of a rational: the behavior of Python
`int(x)` on a float `x`. -/
def truncQ (q : ℚ) : ℤ :=
  if 0 ≤ q then ⌊q⌋ else ⌈q⌉

/-- Embedding of `BoxResizer.get_scaled_box` (lines 52-68).  The two
half-extents are computed first; each delta `int(length * factor)` is
then subtracted from the min side and added to the max side; finally
`x_max` is clamped above by `width`, `x_min` below by `0`, and
analogously for y.  The source computes `int(x_length*self.scale_factor)`
twice (once per side); both occurrences are kept. -/
def get_scaled_box (r : Extent) (scale_factor : ℚ) (box : BoundingBox) : BoundingBox :=
  let x_length : ℚ := ((box.x_max : ℚ) - (box.x_min : ℚ)) / 2
  let y_length : ℚ := ((box.y_max : ℚ) - (box.y_min : ℚ)) / 2
  let x_min1 : ℤ := box.x_min - truncQ (x_length * scale_factor)
  let x_max1 : ℤ := box.x_max + truncQ (x_length * scale_factor)
  let y_min1 : ℤ := box.y_min - truncQ (y_length * scale_factor)
  let y_max1 : ℤ := box.y_max + truncQ (y_length * scale_factor)
  { x_min := max 0 x_min1
    x_max := min r.width x_max1
    y_min := max 0 y_min1
    y_max := min r.height y_max1 }

/-- Clamping of a box to an extent, exactly the last four statements of
`get_scaled_box` (lines 64-67): `x_max` is clamped above by `width`,
`x_min` below by `0`, and analogously for y.  Used to state what
`get_scaled_box` does after the symmetric expansion step. -/
def clampBox (r : Extent) (box : BoundingBox) : BoundingBox :=
  { x_min := max 0 box.x_min
    x_max := min r.width box.x_max
    y_min := max 0 box.y_min
    y_max := min r.height box.y_max }

/-! ## Command-line surface (lines 172-188)

`exit()` in Python is `sys.exit(None)`, which terminates the process
with exit status `0`; both the `--help` branch and the bad-argument
branch of `__main__` call it with no argument.  The model records the
exit status, which messages were printed, and whether the scaler ran.
The `float(sys.argv[3])` parse (which on failure raises an uncaught
`ValueError`) and I/O failures during scaling are outside this model;
`argv` is the full `sys.argv` list, program name included. -/

/-- Observable outcome of the `__main__` block: process exit status,
whether the `"Bad arguments"` message was printed, whether the usage
text from `help()` was printed, and whether `scale_XML_files` ran. -/
structure CLIOutcome where
  exitStatus : ℕ
  printedBadArgs : Bool
  printedUsage : Bool
  ranScaler : Bool
deriving DecidableEq

/-- Embedding of the `__main__` dispatch (lines 172-188): if `--help`
occurs anywhere in `sys.argv`, print usage and `exit()` (status 0);
if `len(sys.argv) != 4`, print `"Bad arguments"`, print usage and
`exit()` (status 0); otherwise run the scaler and fall off the end of
the script (status 0). -/
def main_dispatch (argv : List String) : CLIOutcome :=
  if argv.contains "--help" then
    { exitStatus := 0, printedBadArgs := false, printedUsage := true, ranScaler := false }
  else if argv.length ≠ 4 then
    { exitStatus := 0, printedBadArgs := true, printedUsage := true, ranScaler := false }
  else
    { exitStatus := 0, printedBadArgs := false, printedUsage := false, ranScaler := true }

/-! ## File discovery (lines 72-81) -/

/-- One entry of a directory listing, as seen by `os.listdir` plus the
`os.path.isfile` test: a name and whether the entry is a regular file. -/
structure DirEntry where
  entry_name : String
  is_file : Bool
deriving DecidableEq

/-- Model of `os.path.join(dir, file)` for a directory path and a plain
file name. -/
def path_join (d f : String) : String := d ++ "/" ++ f

/-- Model of Python `s.endswith(suffix)`: the character sequence of
`suffix` is a suffix of the character sequence of `s` (case-sensitive). -/
def str_ends_with (s suffix : String) : Bool :=
  List.isSuffixOf suffix.data s.data

/-- Embedding of `BoxResizer.get_XML_files` (lines 72-81): keep the
entries of the listing that are regular files and whose name ends with
`".xml"` (case-sensitive `str.endswith`), then append the directory
path to each. -/
def get_XML_files (input_directory : String) (dir_contents : List DirEntry) : List String :=
  (dir_contents.filter (fun f => f.is_file && str_ends_with f.entry_name ".xml")).map
    (fun f => path_join input_directory f.entry_name)

/-! ## XML documents

An lxml element is modelled as a rose tree: a tag, a text and a list of
child elements.  `element.find(t)` is the first direct child with tag
`t`; `tree.findall(t)` is the list of direct children of the root with
tag `t`; assigning `child.text` in place is modelled by rebuilding the
containing node with the first child of that tag replaced. -/

/-- An XML element: tag, text content, child elements. -/
inductive XML where
  | node (tag : String) (text : String) (children : List XML)

/-- Tag of an element. -/
def XML.tag : XML → String
  | .node t _ _ => t

/-- Text content of an element. -/
def XML.text : XML → String
  | .node _ s _ => s

/-- Child elements of an element. -/
def XML.children : XML → List XML
  | .node _ _ c => c

/-- Element with the same tag and children but new text: the effect of
assigning `element.text`. -/
def XML.setText : XML → String → XML
  | .node t _ c, s => .node t s c

/-- Tag constant `self.XML_object_tag` (line 31). -/
def XML_object_tag : String := "object"

/-- Tag constant `self.bounding_box_tag` (line 32). -/
def bounding_box_tag : String := "bndbox"

/-- Tag constant `self.base_image_size_tag` (line 33). -/
def base_image_size_tag : String := "size"

/-- Tag constant `self.base_image_width_tag` (line 34). -/
def base_image_width_tag : String := "width"

/-- Tag constant `self.base_image_height_tag` (line 35). -/
def base_image_height_tag : String := "height"

/-- Tag constant `self.x_min_tag` (line 36). -/
def x_min_tag : String := "xmin"

/-- Tag constant `self.x_max_tag` (line 37). -/
def x_max_tag : String := "xmax"

/-- Tag constant `self.y_min_tag` (line 38). -/
def y_min_tag : String := "ymin"

/-- Tag constant `self.y_max_tag` (line 39). -/
def y_max_tag : String := "ymax"

/-- Digit value of a character, `none` for a non-digit: one step of
Python `int(text)`. -/
def digitVal (c : Char) : Option ℕ :=
  if c.isDigit then some (c.toNat - '0'.toNat) else none

/-- Accumulate a decimal natural number from a character list; any
non-digit character is a fatal `ValueError`, modelled as `none`. -/
def readDigits : List Char → ℕ → Option ℕ
  | [], acc => some acc
  | c :: cs, acc =>
    match digitVal c with
    | some d => readDigits cs (acc * 10 + d)
    | none => none

/-- Model of Python `int(text)` on the decimal integer texts of the
annotation schema: an optional leading minus sign followed by at least
one decimal digit; anything else is a fatal `ValueError`, modelled as
`none`. -/
def str_toInt (s : String) : Option ℤ :=
  match s.data with
  | [] => none
  | ['-'] => none
  | '-' :: c :: cs => (readDigits (c :: cs) 0).map (fun n => -(n : ℤ))
  | l => (readDigits l 0).map (fun n => (n : ℤ))

/-- Model of lxml `find(t)` on a list of children: the first child whose
tag is `t`, or `none`. -/
def findChild (t : String) : List XML → Option XML
  | [] => none
  | c :: cs => if c.tag = t then some c else findChild t cs

/-- Replace the first child with tag `t` by `r`: the in-place mutation
of the element that `find(t)` returned. -/
def replaceFirst (t : String) (r : XML) : List XML → List XML
  | [] => []
  | c :: cs => if c.tag = t then r :: cs else c :: replaceFirst t r cs

/-- Loop body of `BoxResizer.XML_to_BoundingBox` (lines 99-113, the
second, live definition): walk the children of a `bndbox` element and
assign `int(child.text)` to the matching field of the accumulating box;
a child whose tag matches none of the four coordinate tags is skipped.
`int(text)` failing to parse is a fatal `ValueError`, modelled as
`none`. -/
def readBoxFields : List XML → BoundingBox → Option BoundingBox
  | [], b => some b
  | c :: cs, b =>
    if c.tag = x_min_tag then
      match str_toInt c.text with
      | some v => readBoxFields cs { b with x_min := v }
      | none => none
    else if c.tag = x_max_tag then
      match str_toInt c.text with
      | some v => readBoxFields cs { b with x_max := v }
      | none => none
    else if c.tag = y_min_tag then
      match str_toInt c.text with
      | some v => readBoxFields cs { b with y_min := v }
      | none => none
    else if c.tag = y_max_tag then
      match str_toInt c.text with
      | some v => readBoxFields cs { b with y_max := v }
      | none => none
    else readBoxFields cs b

/-- Embedding of `BoxResizer.XML_to_BoundingBox` (lines 99-113): start
from the dataclass defaults `(0, 0, 0, 0)` and fill in whichever
coordinate children are present. -/
def XML_to_BoundingBox (bnd : XML) : Option BoundingBox :=
  readBoxFields bnd.children {}

/-- Loop body of `BoxResizer.write_BoundingBox_to_XML` (lines 117-125):
a child whose tag is one of the four coordinate tags gets its text
overwritten with `str(coordinate)`; any other child is left untouched. -/
def writeCoordChild (box : BoundingBox) (c : XML) : XML :=
  if c.tag = x_min_tag then c.setText (toString box.x_min)
  else if c.tag = x_max_tag then c.setText (toString box.x_max)
  else if c.tag = y_min_tag then c.setText (toString box.y_min)
  else if c.tag = y_max_tag then c.setText (toString box.y_max)
  else c

/-- Embedding of `BoxResizer.write_BoundingBox_to_XML` (lines 115-125):
walk the children of the `bndbox` element, overwriting coordinate texts
in place; no child is added or removed and the element itself keeps its
tag and text. -/
def write_BoundingBox_to_XML (box : BoundingBox) (bnd : XML) : XML :=
  .node bnd.tag bnd.text (bnd.children.map (writeCoordChild box))

/-- Per-object body of the loop in `BoxResizer.scale_XML_files`
(lines 147-156): find the object's `bndbox` child (`find` returning
`None` makes the following iteration a fatal `TypeError`, modelled as
`none`), read it into a `BoundingBox`, scale, and write the scaled
coordinates back into the same `bndbox` element in place. -/
def processObject (r : Extent) (scale_factor : ℚ) (obj : XML) : Option XML :=
  match findChild bounding_box_tag obj.children with
  | none => none
  | some bnd =>
    match XML_to_BoundingBox bnd with
    | none => none
    | some box =>
      let scaled := get_scaled_box r scale_factor box
      some (XML.node obj.tag obj.text
        (replaceFirst bounding_box_tag (write_BoundingBox_to_XML scaled bnd) obj.children))

/-- Walk the root's children in order, transforming every child with tag
`object` through `processObject` (the `findall`/`for` loop of
lines 144-156) and keeping every other child untouched. -/
def processChildren (r : Extent) (scale_factor : ℚ) : List XML → Option (List XML)
  | [] => some []
  | c :: cs =>
    if c.tag = XML_object_tag then
      match processObject r scale_factor c with
      | none => none
      | some c' => (processChildren r scale_factor cs).map (c' :: ·)
    else (processChildren r scale_factor cs).map (c :: ·)

/-- Embedding of the per-file body of `BoxResizer.scale_XML_files`
(lines 134-156): read `width` and `height` from the `size` element
(a missing element is a fatal `AttributeError` on `None`, a non-integer
text a fatal `ValueError`, both modelled as `none`), then scale every
`object` child of the root.  The resulting tree is what
`XML_file_tree.write` serializes. -/
def processDocument (scale_factor : ℚ) (root : XML) : Option XML := do
  let sizeEl ← findChild base_image_size_tag root.children
  let wEl ← findChild base_image_width_tag sizeEl.children
  let hEl ← findChild base_image_height_tag sizeEl.children
  let w ← str_toInt wEl.text
  let h ← str_toInt hEl.text
  let children' ← processChildren ⟨w, h⟩ scale_factor root.children
  some (XML.node root.tag root.text children')

/-! ## Frame relations

The relations below say how little of a document the transformation is
allowed to touch: everywhere the same tree shape and the same tags, with
text changed at most on the coordinate children of `bndbox` elements. -/

/-- The four coordinate tags of a `bndbox` element. -/
def coordTags : List String := [x_min_tag, x_max_tag, y_min_tag, y_max_tag]

/-- Pointwise lifting of a relation to lists of equal length. -/
def all2 (p : XML → XML → Prop) : List XML → List XML → Prop
  | [], [] => True
  | c :: cs, d :: ds => p c d ∧ all2 p cs ds
  | _, _ => False

/-- A child of a `bndbox` element may change at most its text, and only
when its tag is one of the four coordinate tags. -/
def coordTextOnly (c c' : XML) : Prop :=
  c'.tag = c.tag ∧ c'.children = c.children ∧ (c.tag ∉ coordTags → c' = c)

/-- A `bndbox` element keeps its own tag and text, and each child may
change at most coordinate text. -/
def bndboxFrame (bn bn' : XML) : Prop :=
  bn'.tag = bn.tag ∧ bn'.text = bn.text ∧ all2 coordTextOnly bn.children bn'.children

/-- A child of an `object` element is unchanged unless it is a `bndbox`,
in which case at most coordinate text changes inside it. -/
def objChildFrame (c c' : XML) : Prop :=
  (c.tag ≠ bounding_box_tag → c' = c) ∧ (c.tag = bounding_box_tag → bndboxFrame c c')

/-- An `object` element keeps its tag and text, and each child respects
`objChildFrame` — in particular its `name` child is unchanged. -/
def objFrame (o o' : XML) : Prop :=
  o'.tag = o.tag ∧ o'.text = o.text ∧ all2 objChildFrame o.children o'.children

/-- A child of the root is unchanged unless it is an `object`. -/
def rootChildFrame (c c' : XML) : Prop :=
  (c.tag ≠ XML_object_tag → c' = c) ∧ (c.tag = XML_object_tag → objFrame c c')

/-- Whole-document frame: same root tag and text, and each root child
respects `rootChildFrame`. -/
def docFrame (r r' : XML) : Prop :=
  r'.tag = r.tag ∧ r'.text = r.text ∧ all2 rootChildFrame r.children r'.children

/-! ## Sample documents for concrete runs -/

/-- A well-formed sample document: one `object` with a `name`, a `pose`
and a complete `bndbox`, plus a root-level `segmented` sibling. -/
def sampleDoc : XML :=
  .node "annotation" ""
    [.node "size" "" [.node "width" "100" [], .node "height" "100" []],
     .node "object" ""
       [.node "name" "widget" [],
        .node "pose" "Unspecified" [],
        .node "bndbox" ""
          [.node "xmin" "10" [], .node "ymin" "10" [],
           .node "xmax" "20" [], .node "ymax" "20" []]],
     .node "segmented" "0" []]

/-- A document whose single `bndbox` has no `xmin` child (the other
three coordinates are present). -/
def docMissingXmin : XML :=
  .node "annotation" ""
    [.node "size" "" [.node "width" "1000" [], .node "height" "1000" []],
     .node "object" ""
       [.node "name" "widget" [],
        .node "bndbox" ""
          [.node "xmax" "100" [], .node "ymin" "0" [], .node "ymax" "100" []]]]

/-- What the program writes for `docMissingXmin` at factor `1/2`: the
run completes, the absent `xmin` stays absent, and the remaining
coordinates are computed from the defaulted `x_min = 0` (the box read
is `(0, 100, 0, 100)`, so `x_length = 50`, delta `25`, giving
`xmax = 125` instead of the `175` a real `xmin = 100` would give). -/
def docMissingXminOut : XML :=
  .node "annotation" ""
    [.node "size" "" [.node "width" "1000" [], .node "height" "1000" []],
     .node "object" ""
       [.node "name" "widget" [],
        .node "bndbox" ""
          [.node "xmax" "125" [], .node "ymin" "0" [], .node "ymax" "125" []]]]

/-! ## Scaling arithmetic: claims C1, C2, C3, C6, C7, C10 -/

/-- Helper: each output coordinate of `get_scaled_box` directly carries
its clamp: the min sides are `max 0 _`, the max sides `min dimension _`. -/
theorem get_scaled_box_clamp_shape (r : Extent) (f : ℚ) (b : BoundingBox) :
    0 ≤ (get_scaled_box r f b).x_min ∧ (get_scaled_box r f b).x_max ≤ r.width ∧
      0 ≤ (get_scaled_box r f b).y_min ∧ (get_scaled_box r f b).y_max ≤ r.height := by
  unfold get_scaled_box
  exact ⟨le_max_left _ _, min_le_left _ _, le_max_left _ _, min_le_left _ _⟩

/-- C1 counterexample: for the ordered box `(0, 50, 0, 50)`, the
extent `(50, 50)` (width, height ≥ 0) and the finite factor `-3`, the
output is `(75, -25, 75, -25)`, whose `x_min = 75` exceeds
`width = 50` — the claimed `x_min ≤ width` fails (the code clamps
`x_min` only from below and `x_max` only from above). -/
theorem scaled_box_min_can_exceed_width :
    get_scaled_box ⟨50, 50⟩ (-3) ⟨0, 50, 0, 50⟩ = ⟨75, -25, 75, -25⟩ ∧
      ¬ ((75 : ℤ) ≤ 50) := by
  constructor
  · norm_num [get_scaled_box, truncQ, Int.ceil_neg]
  · norm_num

/-- C1 amended: for every box with `x_min ≤ x_max` and `y_min ≤ y_max`,
every extent with `width, height ≥ 0` and every finite factor, the
output of `get_scaled_box` satisfies `0 ≤ x_min`, `x_max ≤ width`,
`0 ≤ y_min` and `y_max ≤ height`; the bounds `x_min ≤ width` and
`y_min ≤ height` claimed in addition do not hold in general. -/
theorem scaled_box_coordinate_bounds (b : BoundingBox) (r : Extent) (f : ℚ)
    (hx : b.x_min ≤ b.x_max) (hy : b.y_min ≤ b.y_max)
    (hw : 0 ≤ r.width) (hh : 0 ≤ r.height) :
    0 ≤ (get_scaled_box r f b).x_min ∧ (get_scaled_box r f b).x_max ≤ r.width ∧
      0 ≤ (get_scaled_box r f b).y_min ∧ (get_scaled_box r f b).y_max ≤ r.height :=
  get_scaled_box_clamp_shape r f b

/-- C1 amended, witnessed at the box `(100, 200, 50, 150)`, extent
`(1000, 1000)`, factor `-3`. -/
theorem scaled_box_coordinate_bounds_witness :
    0 ≤ (get_scaled_box ⟨1000, 1000⟩ (-3) ⟨100, 200, 50, 150⟩).x_min ∧
      (get_scaled_box ⟨1000, 1000⟩ (-3) ⟨100, 200, 50, 150⟩).x_max ≤ 1000 ∧
      0 ≤ (get_scaled_box ⟨1000, 1000⟩ (-3) ⟨100, 200, 50, 150⟩).y_min ∧
      (get_scaled_box ⟨1000, 1000⟩ (-3) ⟨100, 200, 50, 150⟩).y_max ≤ 1000 :=
  scaled_box_coordinate_bounds ⟨100, 200, 50, 150⟩ ⟨1000, 1000⟩ (-3)
    (by decide) (by decide) (by decide) (by decide)

/-- C2 counterexample: for the box `(0, 60, 0, 60)` (which even lies
inside the extent), extent `(60, 60)` and factor `-3`, the output is
`(90, -30, 90, -30)`: `x_min = 90 > x_max = -30`, so the claimed
post-invariant `0 ≤ x_min ≤ x_max ≤ width` fails. -/
theorem scaled_box_order_can_invert :
    get_scaled_box ⟨60, 60⟩ (-3) ⟨0, 60, 0, 60⟩ = ⟨90, -30, 90, -30⟩ ∧
      ¬ ((90 : ℤ) ≤ -30) := by
  constructor
  · norm_num [get_scaled_box, truncQ, Int.ceil_neg]
  · norm_num

/-- C2 amended: for every input box, extent and finite factor —
regardless of input ordering or range — the output satisfies
`0 ≤ x_min`, `x_max ≤ width`, `0 ≤ y_min` and `y_max ≤ height`; the
orderings `x_min ≤ x_max` and `y_min ≤ y_max` can fail after
transformation. -/
theorem scaled_box_unconditional_bounds (b : BoundingBox) (r : Extent) (f : ℚ) :
    0 ≤ (get_scaled_box r f b).x_min ∧ (get_scaled_box r f b).x_max ≤ r.width ∧
      0 ≤ (get_scaled_box r f b).y_min ∧ (get_scaled_box r f b).y_max ≤ r.height :=
  get_scaled_box_clamp_shape r f b

/-- C3: for every box with `x_min ≤ x_max` and `y_min ≤ y_max` and every
finite factor, `get_scaled_box` computes the half-extents
`(x_max - x_min)/2` and `(y_max - y_min)/2`, truncates each scaled
half-extent toward zero once per axis, subtracts exactly that delta from
the min side and adds exactly the same delta to the max side, and then
clamps. -/
theorem scaled_box_symmetric_delta (r : Extent) (f : ℚ) (b : BoundingBox)
    (hx : b.x_min ≤ b.x_max) (hy : b.y_min ≤ b.y_max) :
    get_scaled_box r f b =
      clampBox r
        { x_min := b.x_min - truncQ (((b.x_max : ℚ) - (b.x_min : ℚ)) / 2 * f)
          x_max := b.x_max + truncQ (((b.x_max : ℚ) - (b.x_min : ℚ)) / 2 * f)
          y_min := b.y_min - truncQ (((b.y_max : ℚ) - (b.y_min : ℚ)) / 2 * f)
          y_max := b.y_max + truncQ (((b.y_max : ℚ) - (b.y_min : ℚ)) / 2 * f) } :=
  rfl

/-- C3, witnessed at the box `(100, 200, 50, 150)`, extent
`(1000, 1000)`, factor `1/2`. -/
theorem scaled_box_symmetric_delta_witness :
    get_scaled_box ⟨1000, 1000⟩ (1/2) ⟨100, 200, 50, 150⟩ =
      clampBox ⟨1000, 1000⟩
        { x_min := 100 - truncQ (((200 : ℚ) - (100 : ℚ)) / 2 * (1/2))
          x_max := 200 + truncQ (((200 : ℚ) - (100 : ℚ)) / 2 * (1/2))
          y_min := 50 - truncQ (((150 : ℚ) - (50 : ℚ)) / 2 * (1/2))
          y_max := 150 + truncQ (((150 : ℚ) - (50 : ℚ)) / 2 * (1/2)) } :=
  scaled_box_symmetric_delta ⟨1000, 1000⟩ (1/2) ⟨100, 200, 50, 150⟩ (by decide) (by decide)

/-- C6: scaling with factor `0` is clamping, so it is idempotent for
every box and extent, and it is the identity on every box already
satisfying `0 ≤ x_min ≤ x_max ≤ width` and `0 ≤ y_min ≤ y_max ≤ height`. -/
theorem scale_zero_idempotent (b : BoundingBox) (r : Extent) :
    get_scaled_box r 0 (get_scaled_box r 0 b) = get_scaled_box r 0 b ∧
      (0 ≤ b.x_min → b.x_min ≤ b.x_max → b.x_max ≤ r.width →
        0 ≤ b.y_min → b.y_min ≤ b.y_max → b.y_max ≤ r.height →
        get_scaled_box r 0 b = b) := by
  constructor
  · simp only [get_scaled_box, truncQ, mul_zero, le_refl, if_pos, Int.floor_zero,
      sub_zero, add_zero, BoundingBox.mk.injEq]
    refine ⟨?_, ?_, ?_, ?_⟩ <;> omega
  · intro h1 h2 h3 h4 h5 h6
    simp only [get_scaled_box, truncQ, mul_zero, le_refl, if_pos, Int.floor_zero,
      sub_zero, add_zero]
    cases b with
    | mk bx by' cx cy =>
      simp only [BoundingBox.mk.injEq]
      simp only at h1 h2 h3 h4 h5 h6
      refine ⟨?_, ?_, ?_, ?_⟩ <;> omega

/-- C6, witnessed at the in-bounds box `(100, 200, 50, 150)` with extent
`(1000, 1000)`. -/
theorem scale_zero_idempotent_witness :
    get_scaled_box ⟨1000, 1000⟩ 0 (get_scaled_box ⟨1000, 1000⟩ 0 ⟨100, 200, 50, 150⟩) =
        get_scaled_box ⟨1000, 1000⟩ 0 ⟨100, 200, 50, 150⟩ ∧
      get_scaled_box ⟨1000, 1000⟩ 0 ⟨100, 200, 50, 150⟩ = ⟨100, 200, 50, 150⟩ :=
  ⟨(scale_zero_idempotent ⟨100, 200, 50, 150⟩ ⟨1000, 1000⟩).1,
    (scale_zero_idempotent ⟨100, 200, 50, 150⟩ ⟨1000, 1000⟩).2
      (by decide) (by decide) (by decide) (by decide) (by decide) (by decide)⟩

/-- C7: the concrete case of the spec: box `(100, 200, 50, 150)`,
extent `(1000, 1000)`, factor `1/2` gives half-extents `50`, delta `25`
and output `(75, 225, 25, 175)`. -/
theorem scaled_box_concrete_case :
    get_scaled_box ⟨1000, 1000⟩ (1/2) ⟨100, 200, 50, 150⟩ = ⟨75, 225, 25, 175⟩ := by
  norm_num [get_scaled_box, truncQ]

/-- C10: for every degenerate box with `x_min = x_max` and
`y_min = y_max`, every extent and every finite factor, both half-extents
are `0`, the truncated deltas are `0` whatever the factor, and the
output is exactly the clamped input box. -/
theorem degenerate_box_scales_to_clamp (b : BoundingBox) (r : Extent) (f : ℚ)
    (hx : b.x_min = b.x_max) (hy : b.y_min = b.y_max) :
    get_scaled_box r f b = clampBox r b := by
  simp [get_scaled_box, truncQ, clampBox, hx, hy]

/-- C10, witnessed at the degenerate box `(7, 7, 3, 3)`, extent
`(10, 10)`, factor `-5`. -/
theorem degenerate_box_scales_to_clamp_witness :
    get_scaled_box ⟨10, 10⟩ (-5) ⟨7, 7, 3, 3⟩ = clampBox ⟨10, 10⟩ ⟨7, 7, 3, 3⟩ :=
  degenerate_box_scales_to_clamp ⟨7, 7, 3, 3⟩ ⟨10, 10⟩ (-5) (by decide) (by decide)

/-! ## Command line: claim C5 -/

/-- C5 counterexample: the invocation `resize_boxes.py indir` has one
positional argument (not three) and no `--help`; the program prints
`"Bad arguments"` and the usage text, but `exit()` with no argument
terminates with status `0` — not the claimed non-zero exit code. -/
theorem bad_argument_count_exits_zero :
    main_dispatch ["resize_boxes.py", "indir"] =
      { exitStatus := 0, printedBadArgs := true, printedUsage := true, ranScaler := false } ∧
      ¬ (main_dispatch ["resize_boxes.py", "indir"]).exitStatus ≠ 0 := by
  constructor
  · decide
  · decide

/-- C5 amended: a `--help` run prints usage and exits with status `0`;
an invocation without `--help` whose positional argument count is not
exactly 3 prints an error message and usage and terminates without
running the scaler, but with exit status `0` (Python `exit()` with no
argument), the same status as a successful run. -/
theorem cli_dispatch_behavior (argv : List String) :
    (argv.contains "--help" = true →
      main_dispatch argv =
        { exitStatus := 0, printedBadArgs := false, printedUsage := true, ranScaler := false }) ∧
    (argv.contains "--help" = false → argv.length ≠ 4 →
      main_dispatch argv =
        { exitStatus := 0, printedBadArgs := true, printedUsage := true, ranScaler := false }) ∧
    (argv.contains "--help" = false → argv.length = 4 →
      main_dispatch argv =
        { exitStatus := 0, printedBadArgs := false, printedUsage := false, ranScaler := true }) := by
  refine ⟨fun h => ?_, fun h hl => ?_, fun h hl => ?_⟩
  · unfold main_dispatch
    rw [h]
    simp
  · unfold main_dispatch
    rw [h]
    simp [hl]
  · unfold main_dispatch
    rw [h]
    simp [hl]

/-- C5 amended, witnessed on a `--help` run, a one-argument run and a
three-argument run. -/
theorem cli_dispatch_behavior_witness :
    main_dispatch ["resize_boxes.py", "--help"] =
        { exitStatus := 0, printedBadArgs := false, printedUsage := true, ranScaler := false } ∧
      main_dispatch ["resize_boxes.py", "onlyone"] =
        { exitStatus := 0, printedBadArgs := true, printedUsage := true, ranScaler := false } ∧
      main_dispatch ["resize_boxes.py", "in", "out", "0.5"] =
        { exitStatus := 0, printedBadArgs := false, printedUsage := false, ranScaler := true } :=
  ⟨(cli_dispatch_behavior ["resize_boxes.py", "--help"]).1 (by decide),
    (cli_dispatch_behavior ["resize_boxes.py", "onlyone"]).2.1 (by decide) (by decide),
    (cli_dispatch_behavior ["resize_boxes.py", "in", "out", "0.5"]).2.2 (by decide) (by decide)⟩

/-! ## File discovery: claim C9 -/

/-- C9: a path is yielded by `get_XML_files` exactly when it is the
directory-joined name of a listed entry that is a regular file and whose
name ends with the case-sensitive suffix `".xml"`; in particular, in a
directory listing `a.xml` (file), `b.txt` (file), `c.XML` (file) and
`subdir` (directory), only `a.xml` is selected. -/
theorem get_XML_files_spec :
    (∀ (d : String) (entries : List DirEntry) (p : String),
        p ∈ get_XML_files d entries ↔
          ∃ e, e ∈ entries ∧ e.is_file = true ∧ str_ends_with e.entry_name ".xml" = true ∧
            p = path_join d e.entry_name) ∧
      get_XML_files "dir"
          [⟨"a.xml", true⟩, ⟨"b.txt", true⟩, ⟨"c.XML", true⟩, ⟨"subdir", false⟩] =
        ["dir/a.xml"] := by
  constructor
  · intro d entries p
    simp only [get_XML_files, List.mem_map, List.mem_filter, Bool.and_eq_true]
    constructor
    · rintro ⟨e, ⟨he, hf, hx⟩, rfl⟩
      exact ⟨e, he, hf, hx, rfl⟩
    · rintro ⟨e, he, hf, hx, rfl⟩
      exact ⟨e, ⟨he, hf, hx⟩, rfl⟩
  · decide

/-! ## Frame effect of document processing: claim C8 -/

/-- Helper: `setText` keeps the tag. -/
theorem XML.tag_setText (c : XML) (s : String) : (c.setText s).tag = c.tag := by
  cases c
  rfl

/-- Helper: `setText` keeps the children. -/
theorem XML.children_setText (c : XML) (s : String) : (c.setText s).children = c.children := by
  cases c
  rfl

/-- Helper: `coordTextOnly` is reflexive. -/
theorem coordTextOnly_refl (c : XML) : coordTextOnly c c :=
  ⟨rfl, rfl, fun _ => rfl⟩

/-- Helper: `all2` holds on the diagonal for any reflexive relation. -/
theorem all2_refl {p : XML → XML → Prop} (hp : ∀ c, p c c) : ∀ cs, all2 p cs cs
  | [] => trivial
  | c :: cs => ⟨hp c, all2_refl hp cs⟩

/-- Helper: `all2` relates a list to its image under `g` when the
relation holds pointwise between an element and its image. -/
theorem all2_map {p : XML → XML → Prop} {g : XML → XML} (hp : ∀ c, p c (g c)) :
    ∀ cs, all2 p cs (cs.map g)
  | [] => trivial
  | c :: cs => ⟨hp c, all2_map hp cs⟩

/-- Helper: `bndboxFrame` is reflexive. -/
theorem bndboxFrame_refl (b : XML) : bndboxFrame b b :=
  ⟨rfl, rfl, all2_refl coordTextOnly_refl b.children⟩

/-- Helper: `objChildFrame` is reflexive. -/
theorem objChildFrame_refl (c : XML) : objChildFrame c c :=
  ⟨fun _ => rfl, fun _ => bndboxFrame_refl c⟩

/-- Helper: `objFrame` is reflexive. -/
theorem objFrame_refl (o : XML) : objFrame o o :=
  ⟨rfl, rfl, all2_refl objChildFrame_refl o.children⟩

/-- Helper: `rootChildFrame` is reflexive. -/
theorem rootChildFrame_refl (c : XML) : rootChildFrame c c :=
  ⟨fun _ => rfl, fun _ => objFrame_refl c⟩

/-- Helper: writing one coordinate child changes at most its text, and
only when its tag is a coordinate tag. -/
theorem coordTextOnly_writeCoordChild (box : BoundingBox) (c : XML) :
    coordTextOnly c (writeCoordChild box c) := by
  unfold writeCoordChild coordTextOnly
  split_ifs with h1 h2 h3 h4
  · exact ⟨XML.tag_setText c _, XML.children_setText c _,
      fun hn => absurd (by rw [h1]; simp [coordTags]) hn⟩
  · exact ⟨XML.tag_setText c _, XML.children_setText c _,
      fun hn => absurd (by rw [h2]; simp [coordTags]) hn⟩
  · exact ⟨XML.tag_setText c _, XML.children_setText c _,
      fun hn => absurd (by rw [h3]; simp [coordTags]) hn⟩
  · exact ⟨XML.tag_setText c _, XML.children_setText c _,
      fun hn => absurd (by rw [h4]; simp [coordTags]) hn⟩
  · exact ⟨rfl, rfl, fun _ => rfl⟩

/-- Helper: `write_BoundingBox_to_XML` respects the bndbox frame: same
tag, same text, children changed at most in coordinate text. -/
theorem bndboxFrame_write (box : BoundingBox) (bn : XML) :
    bndboxFrame bn (write_BoundingBox_to_XML box bn) :=
  ⟨rfl, rfl, all2_map (coordTextOnly_writeCoordChild box) bn.children⟩

/-- Helper: replacing the first `bndbox` child (the one `find`
returned) by a frame-respecting update respects `objChildFrame`
pointwise. -/
theorem all2_objChildFrame_replaceFirst (w : XML) :
    ∀ (cs : List XML) (bn : XML), findChild bounding_box_tag cs = some bn →
      bndboxFrame bn w → all2 objChildFrame cs (replaceFirst bounding_box_tag w cs)
  | [], bn, hfind => by simp [findChild] at hfind
  | c :: cs, bn, hfind => by
    intro hfr
    unfold findChild at hfind
    unfold replaceFirst
    by_cases h : c.tag = bounding_box_tag
    · rw [if_pos h] at hfind ⊢
      injection hfind with hbn
      exact ⟨⟨fun hne => absurd h hne, fun _ => hbn ▸ hfr⟩, all2_refl objChildFrame_refl cs⟩
    · rw [if_neg h] at hfind ⊢
      exact ⟨objChildFrame_refl c, all2_objChildFrame_replaceFirst w cs bn hfind hfr⟩

/-- Helper: a successful `processObject` respects the object frame. -/
theorem objFrame_processObject (r : Extent) (f : ℚ) (o o' : XML)
    (h : processObject r f o = some o') : objFrame o o' := by
  unfold processObject at h
  split at h
  · simp at h
  · rename_i bn hfind
    split at h
    · simp at h
    · rename_i box hbox
      simp only [Option.some.injEq] at h
      subst h
      exact ⟨rfl, rfl,
        all2_objChildFrame_replaceFirst _ o.children bn hfind
          (bndboxFrame_write (get_scaled_box r f box) bn)⟩

/-- Helper: a successful `processChildren` transforms only `object`
children, and those only through `processObject`. -/
theorem all2_rootChildFrame_processChildren (r : Extent) (f : ℚ) :
    ∀ (cs cs' : List XML), processChildren r f cs = some cs' → all2 rootChildFrame cs cs'
  | [], cs', h => by
    simp only [processChildren, Option.some.injEq] at h
    rw [← h]
    trivial
  | c :: cs, cs', h => by
    unfold processChildren at h
    by_cases htag : c.tag = XML_object_tag
    · rw [if_pos htag] at h
      cases hpo : processObject r f c with
      | none => rw [hpo] at h; simp at h
      | some c' =>
        rw [hpo] at h
        cases hpc : processChildren r f cs with
        | none => rw [hpc] at h; simp at h
        | some ds =>
          rw [hpc] at h
          simp only [Option.map_some', Option.some.injEq] at h
          rw [← h]
          exact ⟨⟨fun hne => absurd htag hne, fun _ => objFrame_processObject r f c c' hpo⟩,
            all2_rootChildFrame_processChildren r f cs ds hpc⟩
    · rw [if_neg htag] at h
      cases hpc : processChildren r f cs with
      | none => rw [hpc] at h; simp at h
      | some ds =>
        rw [hpc] at h
        simp only [Option.map_some', Option.some.injEq] at h
        rw [← h]
        exact ⟨rootChildFrame_refl c, all2_rootChildFrame_processChildren r f cs ds hpc⟩

/-- C8: a successful run of the per-document transformation changes only
the text of coordinate children inside `bndbox` elements of `object`
children: the root keeps its tag, text and child count; every root child
that is not an `object` (including `size` and any other sibling) is
unchanged; inside an `object`, every child that is not a `bndbox` — in
particular its `name` child — is unchanged; and inside a `bndbox` every
child keeps its tag and children, with text changed at most on the four
coordinate tags. -/
theorem process_document_frame_effect (f : ℚ) (root root' : XML)
    (h : processDocument f root = some root') : docFrame root root' := by
  unfold processDocument at h
  simp only [bind, Option.bind_eq_some] at h
  obtain ⟨sizeEl, hsize, h⟩ := h
  obtain ⟨wEl, hw, h⟩ := h
  obtain ⟨hEl, hh, h⟩ := h
  obtain ⟨w, hwv, h⟩ := h
  obtain ⟨hv, hhv, h⟩ := h
  obtain ⟨children', hpc, h⟩ := h
  simp only [Option.some.injEq] at h
  subst h
  exact ⟨rfl, rfl, all2_rootChildFrame_processChildren ⟨w, hv⟩ f root.children children' hpc⟩

/-- C8, witnessed on `sampleDoc` with factor `0`: the run succeeds and
(the output being the same document, every coordinate text rewritten to
its own value) the frame relation holds. -/
theorem process_document_frame_effect_witness : docFrame sampleDoc sampleDoc :=
  process_document_frame_effect 0 sampleDoc sampleDoc (by
    simp [processDocument, sampleDoc, findChild, processChildren, processObject,
      XML_to_BoundingBox, readBoxFields, get_scaled_box, truncQ,
      write_BoundingBox_to_XML, writeCoordChild, replaceFirst,
      XML.setText, XML.tag, XML.text, XML.children,
      x_min_tag, x_max_tag, y_min_tag, y_max_tag, XML_object_tag,
      bounding_box_tag, base_image_size_tag, base_image_width_tag,
      base_image_height_tag, bind, Option.bind,
      show str_toInt "100" = some 100 from by decide,
      show str_toInt "10" = some 10 from by decide,
      show str_toInt "20" = some 20 from by decide,
      show toString (10 : ℤ) = "10" from rfl,
      show toString (20 : ℤ) = "20" from rfl])

/-! ## Missing coordinate children: claim C4 -/

/-- Helper: the field-filling loop of `XML_to_BoundingBox` never touches
`x_min` when no child carries the `xmin` tag, and it does not fail on
account of a missing child. -/
theorem readBoxFields_x_min_const :
    ∀ (cs : List XML) (b b' : BoundingBox), (∀ c ∈ cs, c.tag ≠ x_min_tag) →
      readBoxFields cs b = some b' → b'.x_min = b.x_min
  | [], b, b', _, h => by
    simp only [readBoxFields, Option.some.injEq] at h
    rw [← h]
  | c :: cs, b, b', hm, h => by
    have hc : c.tag ≠ x_min_tag := hm c (List.mem_cons_self c cs)
    have hm' : ∀ d ∈ cs, d.tag ≠ x_min_tag := fun d hd => hm d (List.mem_cons_of_mem c hd)
    unfold readBoxFields at h
    rw [if_neg hc] at h
    by_cases h2 : c.tag = x_max_tag
    · rw [if_pos h2] at h
      cases hv : str_toInt c.text with
      | none => rw [hv] at h; simp at h
      | some v =>
        rw [hv] at h
        exact readBoxFields_x_min_const cs { b with x_max := v } b' hm' h
    · rw [if_neg h2] at h
      by_cases h3 : c.tag = y_min_tag
      · rw [if_pos h3] at h
        cases hv : str_toInt c.text with
        | none => rw [hv] at h; simp at h
        | some v =>
          rw [hv] at h
          exact readBoxFields_x_min_const cs { b with y_min := v } b' hm' h
      · rw [if_neg h3] at h
        by_cases h4 : c.tag = y_max_tag
        · rw [if_pos h4] at h
          cases hv : str_toInt c.text with
          | none => rw [hv] at h; simp at h
          | some v =>
            rw [hv] at h
            exact readBoxFields_x_min_const cs { b with y_max := v } b' hm' h
        · rw [if_neg h4] at h
          exact readBoxFields_x_min_const cs b b' hm' h

/-- C4 counterexample: a document whose `bndbox` has no `xmin` child is
processed to completion at factor `1/2` — no fatal error — and the
output is written with the remaining coordinates computed from the
defaulted `x_min = 0` (`xmax` becomes `125`; a real `xmin = 100` would
give `175`); the `xmin` child is still absent from the output. -/
theorem missing_xmin_processes_without_error :
    processDocument (1/2) docMissingXmin = some docMissingXminOut ∧
      processDocument (1/2) docMissingXmin ≠ none := by
  have hscale : get_scaled_box ⟨1000, 1000⟩ ((2 : ℚ)⁻¹) ⟨0, 100, 0, 100⟩ = ⟨0, 125, 0, 125⟩ := by
    norm_num [get_scaled_box, truncQ]
  have hbox :
      XML_to_BoundingBox
          (XML.node "bndbox" ""
            [XML.node "xmax" "100" [], XML.node "ymin" "0" [], XML.node "ymax" "100" []]) =
        some ⟨0, 100, 0, 100⟩ := by
    decide
  have heval : processDocument (1/2) docMissingXmin = some docMissingXminOut := by
    simp [processDocument, docMissingXmin, docMissingXminOut, findChild,
      processChildren, processObject, hbox, hscale,
      write_BoundingBox_to_XML, writeCoordChild,
      replaceFirst, XML.setText, XML.tag, XML.text, XML.children,
      x_min_tag, x_max_tag, y_min_tag, y_max_tag, XML_object_tag,
      bounding_box_tag, base_image_size_tag, base_image_width_tag,
      base_image_height_tag, bind, Option.bind,
      show str_toInt "1000" = some 1000 from by decide,
      show toString (125 : ℤ) = "125" from rfl,
      show toString (0 : ℤ) = "0" from rfl]
  refine ⟨heval, ?_⟩
  rw [heval]
  simp

/-- C4 amended: a `bndbox` with no `xmin` child does not abort
processing: `XML_to_BoundingBox` succeeds whenever the children that
are present parse, and the returned box carries the dataclass default
`x_min = 0`, which the rest of the pipeline scales and writes as valid
output (the analogous statement holds for the other three coordinate
tags; only a missing `size`/`width`/`height` element or a missing
`bndbox` element is fatal). -/
theorem missing_coordinate_defaults_to_zero (bnd : XML) (b' : BoundingBox)
    (hmiss : ∀ c ∈ bnd.children, c.tag ≠ x_min_tag)
    (hsucc : XML_to_BoundingBox bnd = some b') :
    b'.x_min = 0 :=
  readBoxFields_x_min_const bnd.children {} b' hmiss hsucc

/-- C4 amended, witnessed on a `bndbox` element with children `xmax`,
`ymin`, `ymax` and no `xmin`. -/
theorem missing_coordinate_defaults_to_zero_witness :
    (⟨0, 100, 0, 100⟩ : BoundingBox).x_min = 0 :=
  missing_coordinate_defaults_to_zero
    (XML.node "bndbox" ""
      [XML.node "xmax" "100" [], XML.node "ymin" "0" [], XML.node "ymax" "100" []])
    ⟨0, 100, 0, 100⟩
    (by decide)
    (by decide)
